import Mathlib

/-!
Verification of the Health Analytics Engine specification for the
Health-Journal repository.

The repository ships the React frontend (Dashboard, Analytics, HealthLogs,
Register pages and the axios API layer); the FastAPI backend that implements
the analytics engine (Aggregator, TrendClassifier, AnomalyDetector,
CorrelationAnalyzer, InsightOrchestrator) is not part of the available
sources.  Engine components are therefore modelled from the specification
text (each such definition carries a doc comment starting `Modelled from the
spec:`); the frontend behaviour (error-message selection, health-log form
submission) is embedded directly from the JavaScript sources.

Numbers are modelled as exact rationals; machine floats are idealised.
-/

namespace HealthJournal

/-- The twelve numeric metric keys tracked by a health log, as listed in the
data model (spec section 3) and in the numeric-field list of
`HealthLogs.handleSubmit`. -/
inductive Metric where
  | sleep_hours
  | sleep_quality
  | steps
  | heart_rate_avg
  | heart_rate_max
  | water_intake_liters
  | calories_consumed
  | pain_level
  | mood
  | energy_level
  | stress_level
  | exercise_minutes
deriving DecidableEq, Repr, Fintype

/-- String key of a metric, as used in the JSON payloads and anomaly types. -/
def Metric.key : Metric → String
  | .sleep_hours => "sleep_hours"
  | .sleep_quality => "sleep_quality"
  | .steps => "steps"
  | .heart_rate_avg => "heart_rate_avg"
  | .heart_rate_max => "heart_rate_max"
  | .water_intake_liters => "water_intake_liters"
  | .calories_consumed => "calories_consumed"
  | .pain_level => "pain_level"
  | .mood => "mood"
  | .energy_level => "energy_level"
  | .stress_level => "stress_level"
  | .exercise_minutes => "exercise_minutes"

/-- All metric keys, in declaration order. -/
def allMetrics : List Metric :=
  [.sleep_hours, .sleep_quality, .steps, .heart_rate_avg, .heart_rate_max,
   .water_intake_liters, .calories_consumed, .pain_level, .mood,
   .energy_level, .stress_level, .exercise_minutes]

/-- A health-log record as the engine sees it: a date (day index, unique per
user) and an optional rational value per metric (`none` models a null /
absent measurement).  Symptom tags and notes play no role in the analytics
claims and are omitted. -/
structure HealthLog where
  date : Nat
  values : Metric → Option ℚ

/-- Values of metric `m` present (non-null) in the window, in log order
(logs are date-ascending per the Log Store contract, so this order is
chronological). -/
def presentValues (logs : List HealthLog) (m : Metric) : List ℚ :=
  logs.filterMap (fun l => l.values m)

/-- Arithmetic mean of a list of rationals (0 on the empty list, which the
engine never queries). -/
def mean (vs : List ℚ) : ℚ :=
  vs.sum / vs.length

/-- Population variance of a list of rationals. -/
def variance (vs : List ℚ) : ℚ :=
  (vs.map (fun x => (x - mean vs) ^ 2)).sum / vs.length

/-- Modelled from the spec: display precision per metric (spec 4.1: 1 decimal
for continuous metrics such as sleep hours / water intake, integer for
steps / heart rate / calories / exercise minutes, 1 decimal for 1-10
scales). -/
def precision : Metric → Nat
  | .sleep_hours => 1
  | .water_intake_liters => 1
  | .steps => 0
  | .heart_rate_avg => 0
  | .heart_rate_max => 0
  | .calories_consumed => 0
  | .exercise_minutes => 0
  | .sleep_quality => 1
  | .pain_level => 1
  | .mood => 1
  | .energy_level => 1
  | .stress_level => 1

/-- Round a rational to `p` decimal places, half-up (spec 4.1 requires one
pinned rounding convention). -/
def roundTo (p : Nat) (q : ℚ) : ℚ :=
  (⌊q * 10 ^ p + 1 / 2⌋ : ℤ) / 10 ^ p

/-- Per-metric statistical summary (spec section 3): average, min, max and
sample count over a window. -/
structure MetricSummary where
  average : ℚ
  min : ℚ
  max : ℚ
  sampleCount : Nat
deriving DecidableEq, Repr

/-- Modelled from the spec: `Aggregator.summarize` (spec 4.1).  For each
requested metric, collect the present (non-null) values; with zero present
values the metric is omitted entirely (mapped to `none`), otherwise average
(rounded to the metric's display precision), exact min / max (same
rounding) and the sample count are reported. -/
def summarize (logs : List HealthLog) (keys : List Metric) :
    Metric → Option MetricSummary := fun m =>
  if m ∈ keys then
    match presentValues logs m with
    | [] => none
    | v :: vs =>
        some { average := roundTo (precision m) (mean (v :: vs))
               min := roundTo (precision m) (vs.foldl Min.min v)
               max := roundTo (precision m) (vs.foldl Max.max v)
               sampleCount := (v :: vs).length }
  else none

/-- Trend direction (spec section 3). -/
inductive Direction where
  | improving
  | declining
  | stable
deriving DecidableEq, Repr

/-- A per-metric trend (spec section 3): direction and relative magnitude. -/
structure Trend where
  direction : Direction
  magnitude : ℚ
deriving DecidableEq, Repr

/-- Modelled from the spec: metric polarity table (spec 4.2): `true` when a
higher value is better (steps, mood, energy, sleep hours, water intake,
and the remaining quality metrics), `false` when lower is better (stress,
pain, heart rates, calories treated as lower-is-better). -/
def higherIsBetter : Metric → Bool
  | .sleep_hours => true
  | .sleep_quality => true
  | .steps => true
  | .water_intake_liters => true
  | .mood => true
  | .energy_level => true
  | .exercise_minutes => true
  | .calories_consumed => false
  | .heart_rate_avg => false
  | .heart_rate_max => false
  | .pain_level => false
  | .stress_level => false

/-- Modelled from the spec: the 5% stability threshold of spec 4.2, a
configuration constant. -/
def trendThreshold : ℚ := 5 / 100

/-- Minimum number of data points for a trend (spec 4.2). -/
def minTrendSamples : Nat := 4

/-- Index splitting a run of `n` chronological points into earlier and later
halves; with an odd count the earlier half gets the extra point
(spec 4.2). -/
def splitPoint (n : Nat) : Nat := (n + 1) / 2

/-- Modelled from the spec: average of one half-window, computed via the
Aggregator's average rule (mean rounded to display precision, spec 4.2). -/
def halfAvg (m : Metric) (vs : List ℚ) : ℚ :=
  roundTo (precision m) (mean vs)

/-- Modelled from the spec: trend magnitude (spec 4.2):
(later half average - earlier half average) / earlier half average, falling
back to the absolute difference when the earlier average is 0. -/
def trendMagnitude (m : Metric) (vs : List ℚ) : ℚ :=
  let ea := halfAvg m (vs.take (splitPoint vs.length))
  let la := halfAvg m (vs.drop (splitPoint vs.length))
  if ea = 0 then la - ea else (la - ea) / ea

/-- Modelled from the spec: direction policy (spec 4.2): stable within the
threshold band, improving when the magnitude moves past the threshold in
the metric's good direction, declining otherwise. -/
def directionOf (m : Metric) (mag : ℚ) : Direction :=
  if |mag| < trendThreshold then .stable
  else if (higherIsBetter m ∧ 0 < mag) ∨ (¬ higherIsBetter m ∧ mag < 0) then
    .improving
  else .declining

/-- Modelled from the spec: `TrendClassifier.classify` (spec 4.2).  A metric
produces a trend only when requested and when it has at least
`minTrendSamples` present points; otherwise it is omitted (`none`). -/
def classify (logs : List HealthLog) (keys : List Metric) :
    Metric → Option Trend := fun m =>
  if m ∈ keys ∧ minTrendSamples ≤ (presentValues logs m).length then
    some { direction := directionOf m (trendMagnitude m (presentValues logs m))
           magnitude := trendMagnitude m (presentValues logs m) }
  else none

/-- Anomaly severity tier (spec section 3): medium or high. -/
inductive Severity where
  | medium
  | high
deriving DecidableEq, Repr

/-- Numeric rank of a severity, used for the severity-descending sort. -/
def Severity.rank : Severity → Nat
  | .medium => 0
  | .high => 1

/-- An anomaly (spec section 3): type tag, severity, human-readable
description and originating date. -/
structure Anomaly where
  type : String
  severity : Severity
  description : String
  date : Nat
deriving DecidableEq, Repr

/-- Anomaly type tag of a statistical outlier for metric `m` (spec 4.3). -/
def outlierType (m : Metric) : String := m.key ++ "_outlier"

/-- Minimum number of comparison points for the statistical-outlier check
(spec 4.3). -/
def minComparisonSamples : Nat := 5

/-- Comparison values for metric `m` when testing `entry`: the window's
present values excluding the tested entry itself (identified by its date;
the data-model invariant gives at most one log per date). -/
def comparisonVals (logs : List HealthLog) (entry : HealthLog) (m : Metric) :
    List ℚ :=
  presentValues (logs.filter (fun l => l.date ≠ entry.date)) m

/-- Modelled from the spec: the statistical-outlier strategy of
`AnomalyDetector.detect` (spec 4.3) for one entry and one metric.  Skips
absent metrics, fewer than `minComparisonSamples` comparison points, and a
degenerate (zero-variance) comparison.  A deviation beyond 2 standard
deviations — expressed rationally as squared deviation beyond 4 times the
variance — yields an outlier anomaly, severity high beyond 3 standard
deviations (squared deviation beyond 9 times the variance), else medium. -/
def statCheck (logs : List HealthLog) (entry : HealthLog) (m : Metric) :
    Option Anomaly :=
  match entry.values m with
  | none => none
  | some v =>
      let cs := comparisonVals logs entry m
      if cs.length < minComparisonSamples then none
      else if variance cs = 0 then none
      else if 4 * variance cs < (v - mean cs) ^ 2 then
        some { type := outlierType m
               severity :=
                 if 9 * variance cs < (v - mean cs) ^ 2 then .high else .medium
               description := "unusual " ++ m.key ++ " value"
               date := entry.date }
      else none

/-- Modelled from the spec: configured upper bound on resting heart rate used
by the `elevated_resting_heart_rate` rule (spec 4.3 calls it
`configured-upper-bound`; fixed here at 100 bpm). -/
def hrUpperBound : ℚ := 100

/-- Modelled from the spec: the rule-based composite-risk strategy of
`AnomalyDetector.detect` (spec 4.3): sleep hours below 4 with stress at
least 8 gives a high-severity `sleep_stress_risk`; average heart rate above
the configured bound with zero exercise minutes gives a medium-severity
`elevated_resting_heart_rate`.  Rules are evaluated independently, so one
entry may yield both. -/
def ruleCheck (entry : HealthLog) : List Anomaly :=
  (match entry.values .sleep_hours, entry.values .stress_level with
   | some s, some st =>
       if s < 4 ∧ 8 ≤ st then
         [{ type := "sleep_stress_risk"
            severity := .high
            description := "very low sleep combined with very high stress"
            date := entry.date }]
       else []
   | _, _ => []) ++
  (match entry.values .heart_rate_avg, entry.values .exercise_minutes with
   | some hr, some ex =>
       if hrUpperBound < hr ∧ ex = 0 then
         [{ type := "elevated_resting_heart_rate"
            severity := .medium
            description := "elevated heart rate without exercise"
            date := entry.date }]
       else []
   | _, _ => [])

/-- All anomalies of the window before sorting and capping: both strategies
evaluated per entry against the rest of the window. -/
def rawAnomalies (logs : List HealthLog) : List Anomaly :=
  logs.flatMap (fun e =>
    allMetrics.filterMap (statCheck logs e) ++ ruleCheck e)

/-- Ordering used for the anomaly output (spec 4.3): severity descending,
then date descending (most recent first). -/
def anomalyGE (a b : Anomaly) : Prop :=
  b.severity.rank < a.severity.rank ∨
    (a.severity.rank = b.severity.rank ∧ b.date ≤ a.date)

instance : DecidableRel anomalyGE := fun a b => by
  unfold anomalyGE; infer_instance

instance : IsTotal Anomaly anomalyGE where
  total a b := by unfold anomalyGE; omega

instance : IsTrans Anomaly anomalyGE where
  trans a b c hab hbc := by
    unfold anomalyGE at hab hbc ⊢; omega

/-- Modelled from the spec: configured maximum number of anomalies returned
(spec 4.3 caps the output to avoid flooding; fixed here at 10). -/
def maxAnomalies : Nat := 10

/-- Modelled from the spec: `AnomalyDetector.detect` (spec 4.3): evaluate
both strategies on every entry, sort severity-descending then
date-descending, and cap to the configured maximum. -/
def detect (logs : List HealthLog) : List Anomaly :=
  (List.insertionSort anomalyGE (rawAnomalies logs)).take maxAnomalies

/-- Paired samples for a metric pair (spec 4.4): values from dates where both
metrics are present; alignment is by log (hence by date, one log per
date). -/
def pairedVals (logs : List HealthLog) (a b : Metric) : List (ℚ × ℚ) :=
  logs.filterMap (fun l =>
    match l.values a, l.values b with
    | some x, some y => some (x, y)
    | _, _ => none)

/-- Population covariance of a list of rational pairs. -/
def covariance (ps : List (ℚ × ℚ)) : ℚ :=
  (ps.map (fun p =>
    (p.1 - mean (ps.map Prod.fst)) * (p.2 - mean (ps.map Prod.snd)))).sum /
    ps.length

/-- Minimum number of paired samples for a correlation (spec 4.4). -/
def minCorrelationSamples : Nat := 5

/-- A computed correlation record (spec section 3) carrying the two metric
keys and the sufficient statistics of the pair: covariance and the two
variances.  The Pearson coefficient is covariance divided by the square
root of the product of the variances; it is irrational in general, so it is
represented by these statistics and read off through
`Correlation.coefficientIs`. -/
structure Correlation where
  metricA : Metric
  metricB : Metric
  cov : ℚ
  varA : ℚ
  varB : ℚ
deriving DecidableEq, Repr

/-- The Pearson coefficient of `c` equals `r`: for positive variances,
cov / sqrt (varA * varB) = r exactly when cov * |cov| = r * |r| *
(varA * varB), because x * |x| is injective and sqrt (varA * varB) squares
to varA * varB. -/
def Correlation.coefficientIs (c : Correlation) (r : ℚ) : Prop :=
  c.cov * |c.cov| = r * |r| * (c.varA * c.varB)

/-- Modelled from the spec: `CorrelationAnalyzer.correlate` (spec 4.4): for
each requested pair use only dates where both metrics are present; omit
pairs with fewer than `minCorrelationSamples` paired samples and pairs
where either series has zero variance (undefined correlation, not 0). -/
def correlate (logs : List HealthLog) (pairs : List (Metric × Metric)) :
    List Correlation :=
  pairs.filterMap (fun pr =>
    let ps := pairedVals logs pr.1 pr.2
    if ps.length < minCorrelationSamples then none
    else if variance (ps.map Prod.fst) = 0 ∨ variance (ps.map Prod.snd) = 0
    then none
    else some { metricA := pr.1
                metricB := pr.2
                cov := covariance ps
                varA := variance (ps.map Prod.fst)
                varB := variance (ps.map Prod.snd) })

/-- Engine error taxonomy (spec section 7): zero logs in the requested window
raise the insufficient-data error; an AI Narrative Generator
timeout / transport failure raises the external-service error (spec 4.5
also calls this `InsightGenerationError`). -/
inductive EngineError where
  | insufficientData
  | externalService
deriving DecidableEq, Repr

/-- Failure modes of the AI Narrative Generator collaborator (spec section
6): timeout or transport error. -/
inductive AIFailure where
  | timeout
  | transport
deriving DecidableEq, Repr

/-- The structured summary handed to the AI Narrative Generator (spec 4.5):
the assembled Aggregator, TrendClassifier and AnomalyDetector outputs, not
the raw logs. -/
structure StructuredSummary where
  summaries : Metric → Option MetricSummary
  trends : Metric → Option Trend
  anomalies : List Anomaly

/-- Modelled from the spec: the orchestrator's summary assembly (spec 4.5):
runs the three analyzers over the window for all metrics. -/
def assembleSummary (logs : List HealthLog) : StructuredSummary :=
  { summaries := summarize logs allMetrics
    trends := classify logs allMetrics
    anomalies := detect logs }

/-- A persisted insight (spec section 3): owner, generation timestamp, the
narrative text returned by the AI collaborator, and the structured snapshot
it was built from. -/
structure Insight where
  userId : Nat
  generatedAt : Nat
  narrative : String
  summary : StructuredSummary

/-- Modelled from the spec: `InsightOrchestrator.generate` (spec 4.5).  The
window's logs (already fetched from the Log Store) and the AI Narrative
Generator are passed in explicitly; `now` is the generation timestamp.
Zero logs fail with the insufficient-data error; an AI failure is raised as
the external-service error and nothing is returned or persisted; only a
successful narrative yields an Insight (atomic all-or-nothing). -/
def generate (userId : Nat) (logs : List HealthLog)
    (ai : StructuredSummary → Except AIFailure String) (now : Nat) :
    Except EngineError Insight :=
  if logs.isEmpty then .error .insufficientData
  else
    match ai (assembleSummary logs) with
    | .error _ => .error .externalService
    | .ok narrative =>
        .ok { userId := userId
              generatedAt := now
              narrative := narrative
              summary := assembleSummary logs }

/-- The insights persisted as the result of one `generate` call: exactly the
returned Insight on success, nothing on failure (no partial write). -/
def persistedInsights (r : Except EngineError Insight) : List Insight :=
  match r with
  | .ok i => [i]
  | .error _ => []

/-- Shape of an axios request error as inspected by the frontend handlers:
`message` is `error.message`, `detail` is `error.response?.data?.detail`
(absent when there is no response body), `code` is `error.code`. -/
structure ApiError where
  message : Option String
  detail : Option String
  code : Option String
deriving DecidableEq, Repr

/-- Embeds the catch branch of `handleAIAnalysis` in the Dashboard page
(src/unnamed/part_000, lines 118-129): every error from the AI-analysis
request is shown as the same fixed toast message. -/
def handleAIAnalysisMessage (_ : ApiError) : String :=
  "Failed to generate AI analysis"

/-- Embeds the catch branch of `loadAnalyticsData` in
src/frontend/src/pages/Analytics.js (lines 34-54): the default message is
replaced by a connection message on a network error, else by the server's
`detail` string when present, else by a second network message on code
ERR_NETWORK. -/
def loadAnalyticsDataMessage (e : ApiError) : String :=
  if e.message = some "Network Error" then
    "Cannot connect to the server. Please check if the backend is running."
  else
    match e.detail with
    | some d => d
    | none =>
        if e.code = some "ERR_NETWORK" then
          "Network error. Please check your connection and ensure the backend server is running."
        else "Failed to load analytics data"

/-- A JavaScript value as it appears in the health-log form data and the
processed submission payload: null, a number, a string, or a string array
(the symptoms list).  `nan` is the result of `parseFloat` on text with no
numeric prefix. -/
inductive JsValue where
  | null
  | num (q : ℚ)
  | str (s : String)
  | strList (ss : List String)
  | nan
deriving DecidableEq, Repr

/-- Numeric value of a decimal-digit list (most significant first). -/
def digitsToNat (ds : List Char) : Nat :=
  ds.foldl (fun a c => 10 * a + (c.toNat - 48)) 0

/-- Digit-level decomposition of a form-input string: sign flag, integer
digits value, fraction digits value and fraction length; `none` when there
is no numeric prefix at all (the NaN case).  The accepted shape — an
optional minus sign, then decimal digits with an optional fractional
part — is what a `type="number"` input can hold. -/
def parseParts (s : String) : Option (Bool × Nat × Nat × Nat) :=
  let p : Bool × List Char :=
    match s.toList with
    | '-' :: rest => (true, rest)
    | cs => (false, cs)
  let ip := p.2.takeWhile Char.isDigit
  let rest := p.2.dropWhile Char.isDigit
  let fp : List Char :=
    match rest with
    | '.' :: r => r.takeWhile Char.isDigit
    | _ => []
  if ip = [] ∧ fp = [] then none
  else some (p.1, digitsToNat ip, digitsToNat fp, fp.length)

/-- JavaScript `parseFloat` restricted to the strings a `type="number"` form
input can hold; `none` models NaN (no parsable numeric prefix). -/
def parseFloatJs (s : String) : Option ℚ :=
  match parseParts s with
  | none => none
  | some (neg, ip, fv, fl) =>
      some ((if neg then -1 else 1) * ((ip : ℚ) + (fv : ℚ) / 10 ^ fl))

/-- The numeric-field key list of `handleSubmit` in
src/frontend/src/pages/HealthLogs.js (lines 88-90). -/
def numericFieldKeys : List String :=
  ["sleep_hours", "sleep_quality", "steps", "heart_rate_avg",
   "heart_rate_max", "water_intake_liters", "calories_consumed",
   "pain_level", "mood", "energy_level", "stress_level", "exercise_minutes"]

/-- Embeds the entry mapping of `handleSubmit` in
src/frontend/src/pages/HealthLogs.js (lines 84-94):
`value === '' ? null : numericKeys.includes(key) ? parseFloat(value) || null
: value`.  Form inputs hold strings; `parseFloat(v) || null` is null when
the parse result is NaN or 0 (both falsy in JavaScript). -/
def processEntry (key : String) (value : JsValue) : JsValue :=
  if value = .str "" then .null
  else if key ∈ numericFieldKeys then
    match value with
    | .str s =>
        match parseFloatJs s with
        | none => .null
        | some q => if q = 0 then .null else .num q
    | v => v
  else value

/-- Embeds the per-field initialisation of `handleEdit` in
src/frontend/src/pages/HealthLogs.js (lines 112-131): each numeric form
field is set to `log.field || ''`, so a null, absent, or zero stored value
becomes the empty string and any other number is shown as itself. -/
def editFieldValue (stored : Option ℚ) : JsValue :=
  match stored with
  | none => .str ""
  | some v => if v = 0 then .str "" else .num v

/-- A one-metric log record used as concrete test data: date `d`, with
`sleep_hours` and `mood` optionally set. -/
def mkLog (d : Nat) (sleep : Option ℚ) (mood : Option ℚ) : HealthLog :=
  { date := d
    values := fun m =>
      match m with
      | .sleep_hours => sleep
      | .mood => mood
      | _ => none }

/-- Eight date-ascending logs whose first four sleep values average 5.0 and
whose last four average 7.5 (the spec 8-log trend scenario). -/
def scenarioLogs8 : List HealthLog :=
  [mkLog 1 (some 5) none, mkLog 2 (some 5) none, mkLog 3 (some 5) none,
   mkLog 4 (some 5) none, mkLog 5 (some (15 / 2)) none,
   mkLog 6 (some (15 / 2)) none, mkLog 7 (some (15 / 2)) none,
   mkLog 8 (some (15 / 2)) none]

/-- Six logs with a constant mood of 5: every comparison series has standard
deviation 0. -/
def constLogs : List HealthLog :=
  [mkLog 1 none (some 5), mkLog 2 none (some 5), mkLog 3 none (some 5),
   mkLog 4 none (some 5), mkLog 5 none (some 5), mkLog 6 none (some 5)]

/-- Five logs with mood ramping 1..5: five paired samples with nonzero
variance. -/
def rampLogs : List HealthLog :=
  [mkLog 1 none (some 1), mkLog 2 none (some 2), mkLog 3 none (some 3),
   mkLog 4 none (some 4), mkLog 5 none (some 5)]

/-- The correlation record of the mood self-pair over `rampLogs`: mean 3,
so covariance and both variances are 2. -/
def rampCorr : Correlation :=
  { metricA := .mood, metricB := .mood, cov := 2, varA := 2, varB := 2 }

/-- A single fully-populated log record. -/
def sampleLog : HealthLog :=
  { date := 1, values := fun _ => some 5 }

/-- A backend failure of the "no data yet" class as the frontend receives
it: an HTTP error response whose body carries a detail string. -/
def noDataError : ApiError :=
  { message := some "Request failed with status code 400"
    detail := some "No health data available. Please add health logs first."
    code := some "ERR_BAD_REQUEST" }

/-- A failure of the "analysis service unavailable" class as the frontend
receives it: the request never got a response. -/
def serviceDownError : ApiError :=
  { message := some "Network Error"
    detail := none
    code := some "ERR_NETWORK" }

/-! Theorems. -/

/-- C1: for every user id and every window containing zero logs,
`InsightOrchestrator.generate` fails with the insufficient-data error and
produces (hence persists) no Insight; the error is returned to the caller
unchanged, there is no retry path in `generate`. -/
theorem generate_emptyWindow_insufficientData
    (uid : Nat) (ai : StructuredSummary → Except AIFailure String) (now : Nat) :
    generate uid [] ai now = .error .insufficientData ∧
      persistedInsights (generate uid [] ai now) = [] := by
  constructor <;> simp [generate, persistedInsights]

/-- C2: on a nonempty window, whenever the AI Narrative Generator call fails
(timeout or transport error), `generate` raises the external-service error
and persists nothing; conversely an Insight is returned only when the
narrative call succeeded with exactly that narrative (atomic
all-or-nothing). -/
theorem generate_aiFailure_atomic
    (uid : Nat) (logs : List HealthLog)
    (ai : StructuredSummary → Except AIFailure String) (now : Nat)
    (hne : logs ≠ []) :
    (∀ f : AIFailure, ai (assembleSummary logs) = .error f →
        generate uid logs ai now = .error .externalService ∧
          persistedInsights (generate uid logs ai now) = []) ∧
      ∀ i : Insight, generate uid logs ai now = .ok i →
        ai (assembleSummary logs) = .ok i.narrative := by
  have hemp : logs.isEmpty = false := by
    cases logs with
    | nil => exact absurd rfl hne
    | cons a l => rfl
  constructor
  · intro f hf
    simp [generate, hemp, hf, persistedInsights]
  · intro i hi
    unfold generate at hi
    rw [hemp] at hi
    simp only [Bool.false_eq_true, if_false] at hi
    cases hai : ai (assembleSummary logs) with
    | error f => rw [hai] at hi; exact absurd hi (by simp)
    | ok n =>
        rw [hai] at hi
        simp only [Except.ok.injEq] at hi
        rw [← hi]

/-- C2 witness: on a concrete one-log window with an AI collaborator that
times out, `generate` returns the external-service error and persists
nothing. -/
theorem generate_aiFailure_atomic_witness :
    generate 0 [sampleLog] (fun _ => .error .timeout) 0 =
        .error .externalService ∧
      persistedInsights (generate 0 [sampleLog] (fun _ => .error .timeout) 0) =
        [] :=
  (generate_aiFailure_atomic 0 [sampleLog] (fun _ => .error .timeout) 0
    (by simp)).1 .timeout rfl

/-- C3: `Aggregator.summarize` carries a metric in its result exactly when
the metric was requested and at least one log has a non-null value for it;
a metric with zero present values is omitted entirely (mapped to `none`),
never emitted as a zero-filled or null-filled summary. -/
theorem summarize_isSome_iff
    (logs : List HealthLog) (keys : List Metric) (m : Metric) :
    (summarize logs keys m).isSome = true ↔
      m ∈ keys ∧ presentValues logs m ≠ [] := by
  by_cases hm : m ∈ keys
  · cases hv : presentValues logs m with
    | nil => simp [summarize, hm, hv]
    | cons v vs => simp [summarize, hm, hv]
  · simp [summarize, hm]

/-- C4: `TrendClassifier.classify` emits a trend for a metric exactly when
the metric was requested and has at least 4 present data points; with fewer
than 4 (in particular exactly one) the metric is omitted (`none`) rather
than reported as stable. -/
theorem classify_isSome_iff
    (logs : List HealthLog) (keys : List Metric) (m : Metric) :
    (classify logs keys m).isSome = true ↔
      m ∈ keys ∧ 4 ≤ (presentValues logs m).length := by
  unfold classify
  by_cases h : m ∈ keys ∧ minTrendSamples ≤ (presentValues logs m).length
  · rw [if_pos h]
    simpa [minTrendSamples] using h
  · rw [if_neg h]
    simpa [minTrendSamples] using h

/-- C9 counterexample: the claim that the two failure classes never produce
the same user-visible message is false at a concrete input: the
Dashboard's `handleAIAnalysis` catch shows the same fixed toast for a
"no data yet" backend rejection and for an unreachable analysis service. -/
theorem aiAnalysis_failureMessages_collide :
    handleAIAnalysisMessage noDataError =
      handleAIAnalysisMessage serviceDownError :=
  rfl

/-- C9 amended: the Analytics page's `loadAnalyticsData` distinguishes the
two conditions — the server-provided "no data" detail is shown verbatim
while a network failure gets a connection-specific message — but the
Dashboard's `handleAIAnalysis` shows one fixed message for every failure,
so on the AI-analysis path the two failure classes produce the same
message. -/
theorem failureMessages_analytics_specific_dashboard_generic :
    (∀ e : ApiError,
        handleAIAnalysisMessage e = "Failed to generate AI analysis") ∧
      loadAnalyticsDataMessage noDataError =
        "No health data available. Please add health logs first." ∧
      loadAnalyticsDataMessage serviceDownError =
        "Cannot connect to the server. Please check if the backend is running." ∧
      loadAnalyticsDataMessage noDataError ≠
        loadAnalyticsDataMessage serviceDownError := by
  refine ⟨fun e => rfl, rfl, rfl, ?_⟩
  decide

/-- C10: for every numeric field of the health-log form, `handleSubmit`
sends null whenever the field holds the empty string, any text whose
`parseFloat` is NaN, or any text parsing to 0 (zero being falsy in
JavaScript) — so a recorded zero is indistinguishable from an absent
measurement at the API boundary — and `handleEdit` re-displays both a
stored 0 and a stored null as the empty string. -/
theorem processEntry_zero_indistinguishable
    (key : String) (hk : key ∈ numericFieldKeys) :
    processEntry key (.str "") = .null ∧
      (∀ s : String, parseFloatJs s = none → processEntry key (.str s) = .null) ∧
      (∀ s : String, parseFloatJs s = some 0 →
        processEntry key (.str s) = .null) ∧
      editFieldValue (some 0) = .str "" ∧
      editFieldValue none = .str "" := by
  refine ⟨rfl, ?_, ?_, rfl, rfl⟩
  · intro s hs
    by_cases h0 : s = ""
    · simp [processEntry, h0]
    · simp [processEntry, h0, hk, hs]
  · intro s hs
    by_cases h0 : s = ""
    · simp [processEntry, h0]
    · simp [processEntry, h0, hk, hs]

/-- C10 witness: for the concrete field `exercise_minutes`, the submitted
payload is null for the inputs "0", "" and "abc", and the edit form shows
a stored 0 as empty. -/
theorem processEntry_zero_indistinguishable_witness :
    processEntry "exercise_minutes" (.str "0") = .null ∧
      processEntry "exercise_minutes" (.str "") = .null ∧
      processEntry "exercise_minutes" (.str "abc") = .null ∧
      editFieldValue (some 0) = .str "" := by
  have h := processEntry_zero_indistinguishable "exercise_minutes" (by decide)
  refine ⟨?_, h.1, ?_, h.2.2.2.1⟩
  · exact h.2.2.1 "0" (by
      norm_num [parseFloatJs,
        show parseParts "0" = some (false, 0, 0, 0) from by decide])
  · exact h.2.1 "abc" (by
      norm_num [parseFloatJs, show parseParts "abc" = none from by decide])

/-- C5: `TrendClassifier.classify` splits a metric's points chronologically
into an earlier and a later half (the earlier half keeps the extra point on
odd counts) and sets magnitude = (later avg - earlier avg) / earlier avg:
for any requested window whose 8 sleep-hour points average 5.0 over the
first half (the first 4 points) and 7.5 over the second half, it reports
direction improving with magnitude 1/2. -/
theorem classify_scenario8_improving
    (logs : List HealthLog) (keys : List Metric)
    (hm : Metric.sleep_hours ∈ keys)
    (h8 : (presentValues logs .sleep_hours).length = 8)
    (he : mean ((presentValues logs .sleep_hours).take 4) = 5)
    (hl : mean ((presentValues logs .sleep_hours).drop 4) = 15 / 2) :
    classify logs keys .sleep_hours = some ⟨.improving, 1 / 2⟩ := by
  have hcond : Metric.sleep_hours ∈ keys ∧
      minTrendSamples ≤ (presentValues logs .sleep_hours).length := by
    refine ⟨hm, ?_⟩
    rw [h8]
    norm_num [minTrendSamples]
  have hmag :
      trendMagnitude .sleep_hours (presentValues logs .sleep_hours) = 1 / 2 := by
    unfold trendMagnitude splitPoint halfAvg
    rw [h8]
    norm_num [he, hl, precision, roundTo]
  unfold classify
  rw [if_pos hcond, hmag]
  norm_num [directionOf, higherIsBetter, trendThreshold, abs_lt]

/-- C5 witness: on the concrete 8-log scenario window (first-half sleep
average 5.0, second-half average 7.5) the classifier reports improving
with magnitude 1/2. -/
theorem classify_scenario8_improving_witness :
    classify scenarioLogs8 [Metric.sleep_hours] Metric.sleep_hours =
      some ⟨.improving, 1 / 2⟩ :=
  classify_scenario8_improving scenarioLogs8 [Metric.sleep_hours]
    (by decide) (by decide)
    (by norm_num [presentValues, scenarioLogs8, mkLog, List.filterMap_cons, mean])
    (by norm_num [presentValues, scenarioLogs8, mkLog, List.filterMap_cons, mean])

/-- The statistical-outlier check is skipped on degenerate comparison data:
zero variance or too few comparison points. -/
theorem statCheck_degenerate (logs : List HealthLog) (e : HealthLog)
    (m : Metric)
    (h : variance (comparisonVals logs e m) = 0 ∨
      (comparisonVals logs e m).length < minComparisonSamples) :
    statCheck logs e m = none := by
  cases hv : e.values m with
  | none => simp [statCheck, hv]
  | some v =>
      by_cases hl : (comparisonVals logs e m).length < minComparisonSamples
      · simp [statCheck, hv, hl]
      · rcases h with h | h
        · simp [statCheck, hv, hl, h]
        · exact absurd h hl

/-- Every anomaly produced by the statistical-outlier check carries the
outlier type tag of its metric. -/
theorem statCheck_type {logs : List HealthLog} {e : HealthLog} {m : Metric}
    {a : Anomaly} (h : statCheck logs e m = some a) :
    a.type = outlierType m := by
  unfold statCheck at h
  cases hv : e.values m with
  | none => rw [hv] at h; exact absurd h (by simp)
  | some v =>
      rw [hv] at h
      simp only at h
      split at h
      · exact absurd h (by simp)
      · split at h
        · exact absurd h (by simp)
        · split at h
          · rw [Option.some_inj] at h
            rw [← h]
          · exact absurd h (by simp)

/-- Every anomaly produced by the rule-based check carries one of the two
rule type tags. -/
theorem ruleCheck_type {e : HealthLog} {a : Anomaly} (h : a ∈ ruleCheck e) :
    a.type = "sleep_stress_risk" ∨ a.type = "elevated_resting_heart_rate" := by
  unfold ruleCheck at h
  rw [List.mem_append] at h
  rcases h with h | h
  · left
    cases h1 : e.values .sleep_hours <;> rw [h1] at h
    · simp at h
    · cases h2 : e.values .stress_level <;> rw [h2] at h
      · simp at h
      · simp only at h
        split at h
        · simp only [List.mem_singleton] at h
          rw [h]
        · simp at h
  · right
    cases h1 : e.values .heart_rate_avg <;> rw [h1] at h
    · simp at h
    · cases h2 : e.values .exercise_minutes <;> rw [h2] at h
      · simp at h
      · simp only at h
        split at h
        · simp only [List.mem_singleton] at h
          rw [h]
        · simp at h

/-- Distinct metrics have distinct outlier type tags. -/
theorem outlierType_injOn :
    ∀ m1 m2 : Metric, outlierType m1 = outlierType m2 → m1 = m2 := by
  decide

/-- No rule type tag coincides with any outlier type tag. -/
theorem ruleType_ne_outlierType :
    ∀ m : Metric, outlierType m ≠ "sleep_stress_risk" ∧
      outlierType m ≠ "elevated_resting_heart_rate" := by
  decide

/-- Anything returned by `detect` came from the raw anomaly pass (sorting is
a permutation and capping is a sublist). -/
theorem mem_rawAnomalies_of_mem_detect {logs : List HealthLog} {a : Anomaly}
    (h : a ∈ detect logs) : a ∈ rawAnomalies logs := by
  unfold detect at h
  have h1 : a ∈ List.insertionSort anomalyGE (rawAnomalies logs) :=
    List.Sublist.mem h (List.take_sublist _ _)
  exact (List.perm_insertionSort anomalyGE (rawAnomalies logs)).mem_iff.mp h1

/-- C6: whenever a metric's comparison data is degenerate for every entry of
the window — constant (variance 0) or fewer than 5 comparison points —
`AnomalyDetector.detect` emits no statistical-outlier anomaly for that
metric, regardless of the tested entries' values. -/
theorem detect_degenerate_noOutlier (logs : List HealthLog) (m : Metric)
    (h : ∀ e ∈ logs, variance (comparisonVals logs e m) = 0 ∨
      (comparisonVals logs e m).length < 5) :
    ∀ a ∈ detect logs, a.type ≠ outlierType m := by
  intro a ha hty
  have hraw := mem_rawAnomalies_of_mem_detect ha
  unfold rawAnomalies at hraw
  rw [List.mem_flatMap] at hraw
  obtain ⟨e, he, hmem⟩ := hraw
  rw [List.mem_append] at hmem
  rcases hmem with hstat | hrule
  · rw [List.mem_filterMap] at hstat
    obtain ⟨m2, _, hsc⟩ := hstat
    have hm2 : m2 = m :=
      outlierType_injOn m2 m (by rw [← statCheck_type hsc, hty])
    rw [hm2, statCheck_degenerate logs e m (h e he)] at hsc
    exact absurd hsc (by simp)
  · rcases ruleCheck_type hrule with h1 | h1 <;> rw [hty] at h1
    · exact absurd h1 (ruleType_ne_outlierType m).1
    · exact absurd h1 (ruleType_ne_outlierType m).2

/-- C6 witness: on the concrete constant-mood window (six logs, mood 5
throughout, so every comparison series has variance 0), no mood-outlier
anomaly appears in the detector output. -/
theorem detect_degenerate_noOutlier_witness :
    outlierType .mood ∉ (detect constLogs).map Anomaly.type := by
  intro hmem
  rw [List.mem_map] at hmem
  obtain ⟨a, ha, haty⟩ := hmem
  refine detect_degenerate_noOutlier constLogs .mood ?_ a ha haty
  intro e he
  left
  simp only [constLogs, List.mem_cons, List.not_mem_nil, or_false] at he
  rcases he with rfl | rfl | rfl | rfl | rfl | rfl <;>
    norm_num [comparisonVals, presentValues, constLogs, mkLog,
      List.filter_cons, List.filterMap_cons, variance, mean]

/-- C7: `AnomalyDetector.detect` returns at most the configured maximum
number of anomalies, and the returned sequence is sorted by severity
descending then date descending (high before medium, most recent first
within equal severity). -/
theorem detect_capped_sorted (logs : List HealthLog) :
    (detect logs).length ≤ maxAnomalies ∧ (detect logs).Sorted anomalyGE := by
  constructor
  · rw [detect, List.length_take]
    exact Nat.min_le_left _ _
  · exact List.Pairwise.sublist (List.take_sublist _ _)
      (List.sorted_insertionSort anomalyGE _)

/-- Pairing a metric with itself duplicates each present value. -/
theorem pairedVals_self (logs : List HealthLog) (m : Metric) :
    pairedVals logs m m = (presentValues logs m).map (fun x => (x, x)) := by
  induction logs with
  | nil => rfl
  | cons l ls ih =>
      cases hv : l.values m <;>
        simp [pairedVals, presentValues, List.filterMap_cons, hv] <;>
        simpa [pairedVals, presentValues] using ih

/-- First projections of the duplicated list. -/
theorem map_fst_diag (vs : List ℚ) :
    (vs.map (fun x => (x, x))).map Prod.fst = vs := by
  induction vs with
  | nil => rfl
  | cons v t ih => simp [ih]

/-- Second projections of the duplicated list. -/
theorem map_snd_diag (vs : List ℚ) :
    (vs.map (fun x => (x, x))).map Prod.snd = vs := by
  induction vs with
  | nil => rfl
  | cons v t ih => simp [ih]

/-- Population variance is never negative. -/
theorem variance_nonneg (vs : List ℚ) : 0 ≤ variance vs := by
  unfold variance
  apply div_nonneg
  · apply List.sum_nonneg
    intro x hx
    rw [List.mem_map] at hx
    obtain ⟨y, _, rfl⟩ := hx
    exact sq_nonneg _
  · exact Nat.cast_nonneg _

/-- Covariance of a series with itself is its variance. -/
theorem covariance_self (vs : List ℚ) :
    covariance (vs.map (fun x => (x, x))) = variance vs := by
  unfold covariance variance
  rw [map_fst_diag, map_snd_diag, List.map_map, List.length_map]
  have hfun : ((fun p : ℚ × ℚ => (p.1 - mean vs) * (p.2 - mean vs)) ∘
      fun x => (x, x)) = fun x : ℚ => (x - mean vs) ^ 2 := by
    funext x
    simp [Function.comp]
    ring
  rw [hfun]

/-- C8: for every window where a metric has at least 5 paired samples with
itself and nonzero variance, `CorrelationAnalyzer.correlate` on the
self-pair yields exactly one record whose Pearson coefficient is 1; and
any pair in which either series has zero variance is omitted from the
output rather than reported as 0. -/
theorem correlate_self_pearson_one (logs : List HealthLog) (m : Metric)
    (h5 : 5 ≤ (pairedVals logs m m).length)
    (hv : variance ((pairedVals logs m m).map Prod.fst) ≠ 0) :
    (∃ c, correlate logs [(m, m)] = [c] ∧ c.coefficientIs 1) ∧
      ∀ (logs2 : List HealthLog) (a b : Metric),
        variance ((pairedVals logs2 a b).map Prod.fst) = 0 ∨
          variance ((pairedVals logs2 a b).map Prod.snd) = 0 →
        correlate logs2 [(a, b)] = [] := by
  constructor
  · have hself := pairedVals_self logs m
    have hfst : (pairedVals logs m m).map Prod.fst = presentValues logs m := by
      rw [hself, map_fst_diag]
    have hsnd : (pairedVals logs m m).map Prod.snd = presentValues logs m := by
      rw [hself, map_snd_diag]
    have hvv : variance (presentValues logs m) ≠ 0 := by rw [← hfst]; exact hv
    have hcov : covariance (pairedVals logs m m) =
        variance (presentValues logs m) := by
      rw [hself, covariance_self]
    refine ⟨{ metricA := m, metricB := m
              cov := covariance (pairedVals logs m m)
              varA := variance ((pairedVals logs m m).map Prod.fst)
              varB := variance ((pairedVals logs m m).map Prod.snd) }, ?_, ?_⟩
    · have hc1 : ¬ ((pairedVals logs m m).length < minCorrelationSamples) := by
        rw [minCorrelationSamples]
        omega
      have hc2 : ¬ (variance ((pairedVals logs m m).map Prod.fst) = 0 ∨
          variance ((pairedVals logs m m).map Prod.snd) = 0) := by
        rw [hfst, hsnd]
        push_neg
        exact ⟨hvv, hvv⟩
      simp [correlate, List.filterMap_cons, hc1, hc2]
    · unfold Correlation.coefficientIs
      simp only [hfst, hsnd, hcov]
      rw [abs_of_nonneg (variance_nonneg (presentValues logs m))]
      norm_num
  · intro logs2 a b hz
    unfold correlate
    rw [List.filterMap_cons]
    by_cases hlen : (pairedVals logs2 a b).length < minCorrelationSamples
    · rw [if_pos hlen]
      rfl
    · rw [if_neg hlen, if_pos hz]
      rfl

/-- C8 witness: on the concrete five-log mood ramp 1..5 (five paired
samples, variance 2), correlating mood with itself yields exactly the
record with covariance 2 and both variances 2, whose Pearson coefficient
is 1. -/
theorem correlate_self_pearson_one_witness :
    correlate rampLogs [(Metric.mood, Metric.mood)] = [rampCorr] ∧
      rampCorr.coefficientIs 1 := by
  have hps : pairedVals rampLogs .mood .mood =
      [((1 : ℚ), 1), (2, 2), (3, 3), (4, 4), (5, 5)] := by
    norm_num [pairedVals, rampLogs, mkLog, List.filterMap_cons]
  obtain ⟨⟨c, hc, hco⟩, -⟩ :=
    correlate_self_pearson_one rampLogs .mood (by rw [hps]; norm_num)
      (by rw [hps]; norm_num [variance, mean])
  have heval : correlate rampLogs [(Metric.mood, Metric.mood)] = [rampCorr] := by
    simp only [correlate, List.filterMap_cons, List.filterMap_nil, hps]
    norm_num [variance, covariance, mean, minCorrelationSamples, rampCorr]
  have hceq : c = rampCorr := by
    have h2 := hc.symm.trans heval
    simpa using h2
  exact ⟨heval, hceq ▸ hco⟩

end HealthJournal
